import Mathlib

/-!
Verification of the credential-bootstrap script `src/tools/get-pm-apikey.py`
of the `predict_arb` repository.

The script is straight-line glue code: read two environment variables,
validate their presence, construct a `ClobClient`, call
`create_or_derive_api_creds`, print the three credential fields, bind the
credentials with `set_api_creds`, and verify them with `get_api_keys`
inside a `try/except` block.

We embed the script as a pure function from the process environment and
the behavior of the remote client library (the outcome of each of the
three member calls the script performs) to a termination outcome together
with the ordered trace of observable events: console prints, client
construction, and client calls.  The external `py_clob_client` library is
a third-party collaborator; its calls are modelled as opaque outcomes
(success value or raised exception), and — following the spec's contract
for the library boundary — client construction is local and emits no
client call.
-/

namespace GetPmApikey

/-- The API credential set returned by `create_or_derive_api_creds`:
the three fields the script reads (`api_key`, `api_secret`,
`api_passphrase`). -/
structure ApiCreds where
  api_key : String
  api_secret : String
  api_passphrase : String
deriving DecidableEq, Repr

/-- Outcome of one call into the client library: a returned value, or a
raised exception carrying a message. -/
inductive CallResult (α : Type) where
  | ok (a : α)
  | exn (msg : String)
deriving DecidableEq, Repr

/-- The process environment: the two variables the script reads via
`os.getenv` (an absent variable is `none`). -/
structure Env where
  POLYMARKET_TRADER_PRIVATE_KEY : Option String
  POLYMARKET_TRADER_ADDRESS : Option String

/-- The behavior of the remote client library during one run: the outcome
of each of the three member calls the script performs. -/
structure Remote where
  create_or_derive_api_creds : CallResult ApiCreds
  set_api_creds : CallResult Unit
  get_api_keys : CallResult (List String)

/-- Observable events of a run, in program order: a `print` call with its
argument, construction of the `ClobClient` with its five arguments, and
the three client member calls. -/
inductive Event where
  | printed (line : String)
  | clobClientInit (host : String) (chain_id : Nat) (key : String)
      (signature_type : Nat) (funder : String)
  | callCreateOrDeriveApiCreds
  | callSetApiCreds
  | callGetApiKeys
deriving DecidableEq, Repr

/-- How the process terminates: normal exit (success status), or an
uncaught exception carrying a message. -/
inductive Outcome where
  | exitSuccess
  | uncaught (msg : String)
deriving DecidableEq, Repr

/-- Python truthiness of an optional string: `not x` holds exactly for
`None` and the empty string. -/
def truthy : Option String → Bool
  | none => false
  | some s => !decide (s = "")

/-- The `ValueError` message raised on missing configuration
(line 14 of the script). -/
def configErrorMsg : String :=
  "请在 .env 中配置 POLYMARKET_TRADER_PRIVATE_KEY 和 POLYMARKET_TRADER_ADDRESS"

/-- The fixed `host` argument of the `ClobClient` constructor. -/
def host : String := "https://clob.polymarket.com"

/-- The fixed `chain_id` argument of the `ClobClient` constructor
(Polygon mainnet). -/
def chain_id : Nat := 137

/-- The fixed `signature_type` argument of the `ClobClient` constructor
(0 = EOA wallet). -/
def signature_type : Nat := 0

/-- `"=" * 50`, the banner separator. -/
def sep50 : String := String.mk (List.replicate 50 '=')

/-- The argument of the first `print` call. -/
def genMsgLine : String := "正在生成 API 凭证..."

/-- The argument of `print("\n" + "=" * 50)`. -/
def bannerTop : String := "\n" ++ sep50

/-- The success banner printed before the credential fields. -/
def successBanner : String := "✅ API 凭证生成成功！请妥善保存以下信息："

/-- The credential line `f"API_KEY      = {api_creds.api_key}"`. -/
def keyLine (c : ApiCreds) : String := "API_KEY      = " ++ c.api_key

/-- The credential line `f"API_SECRET   = {api_creds.api_secret}"`. -/
def secretLine (c : ApiCreds) : String := "API_SECRET   = " ++ c.api_secret

/-- The credential line `f"API_PASSPHRASE = {api_creds.api_passphrase}"`. -/
def passphraseLine (c : ApiCreds) : String :=
  "API_PASSPHRASE = " ++ c.api_passphrase

/-- The argument of `print("\n正在验证凭证...")`. -/
def verifyingLine : String := "\n正在验证凭证..."

/-- The verification-success line
`f"✅ 验证成功！当前账户共有 {len(keys)} 个 API Key"`. -/
def successLine (n : Nat) : String :=
  "✅ 验证成功！当前账户共有 " ++ (toString n ++ " 个 API Key")

/-- The verification-failure warning `f"⚠️ 验证失败: {e}"`. -/
def warnLine (e : String) : String := "⚠️ 验证失败: " ++ e

/-- The script `src/tools/get-pm-apikey.py`, translated line by line:
given the environment and the remote library behavior it returns the
termination outcome and the ordered trace of observable events. -/
def runScript (env : Env) (remote : Remote) : Outcome × List Event :=
  let PRIVATE_KEY := env.POLYMARKET_TRADER_PRIVATE_KEY
  let WALLET_ADDRESS := env.POLYMARKET_TRADER_ADDRESS
  if !truthy PRIVATE_KEY || !truthy WALLET_ADDRESS then
    (Outcome.uncaught configErrorMsg, [])
  else
    let pk := PRIVATE_KEY.getD ""
    let wa := WALLET_ADDRESS.getD ""
    let ev₁ : List Event :=
      [Event.clobClientInit host chain_id pk signature_type wa,
       Event.printed genMsgLine,
       Event.callCreateOrDeriveApiCreds]
    match remote.create_or_derive_api_creds with
    | CallResult.exn msg => (Outcome.uncaught msg, ev₁)
    | CallResult.ok api_creds =>
      let ev₂ : List Event := ev₁ ++
        [Event.printed bannerTop,
         Event.printed successBanner,
         Event.printed sep50,
         Event.printed (keyLine api_creds),
         Event.printed (secretLine api_creds),
         Event.printed (passphraseLine api_creds),
         Event.printed sep50,
         Event.callSetApiCreds]
      match remote.set_api_creds with
      | CallResult.exn msg => (Outcome.uncaught msg, ev₂)
      | CallResult.ok _ =>
        let ev₃ : List Event := ev₂ ++
          [Event.printed verifyingLine, Event.callGetApiKeys]
        match remote.get_api_keys with
        | CallResult.ok keys =>
          (Outcome.exitSuccess, ev₃ ++ [Event.printed (successLine keys.length)])
        | CallResult.exn e =>
          (Outcome.exitSuccess, ev₃ ++ [Event.printed (warnLine e)])

/-- The console output of a trace: the arguments of the `print` calls,
in order. -/
def printedLines (t : List Event) : List String :=
  t.filterMap fun e =>
    match e with
    | Event.printed s => some s
    | _ => none

/-- Whether an event is a call into the client (`create_or_derive_api_creds`,
`set_api_creds` or `get_api_keys`); client construction is not. -/
def isClientCall : Event → Bool
  | Event.callCreateOrDeriveApiCreds => true
  | Event.callSetApiCreds => true
  | Event.callGetApiKeys => true
  | _ => false

/-- Number of occurrences of a line in a list of output lines. -/
def occurrencesOf (line : String) : List String → Nat
  | [] => 0
  | x :: xs => (if x = line then 1 else 0) + occurrencesOf line xs

/-- Position of the first occurrence of a line in a list of output lines
(the length of the list when absent). -/
def firstIndexOf (line : String) : List String → Nat
  | [] => 0
  | x :: xs => if x = line then 0 else firstIndexOf line xs + 1

/-- Whether a character list leads with the given pattern. -/
def listLeadsWith : List Char → List Char → Bool
  | [], _ => true
  | _ :: _, [] => false
  | p :: ps, c :: cs => p == c && listLeadsWith ps cs

/-- Whether a pattern occurs contiguously in a character list. -/
def subOccurs (pat : List Char) : List Char → Bool
  | [] => listLeadsWith pat []
  | c :: cs => listLeadsWith pat (c :: cs) || subOccurs pat cs

/-- Whether `pat` occurs as a substring of `msg`. -/
def msgMentions (msg pat : String) : Bool := subOccurs pat.data msg.data

-- Concrete inputs shared by the witnesses.

/-- A well-formed environment: both variables set and non-empty. -/
def envW : Env := ⟨some "0xabc", some "0xdef"⟩

/-- A remote behavior in which all three calls succeed; `get_api_keys`
returns two keys. -/
def remoteW : Remote :=
  ⟨CallResult.ok ⟨"K1", "S1", "P1"⟩, CallResult.ok (),
   CallResult.ok ["key0", "key1"]⟩

/-- A remote behavior in which `create_or_derive_api_creds` raises. -/
def remoteCreateFails : Remote :=
  ⟨CallResult.exn "create failed", CallResult.ok (), CallResult.ok []⟩

/-- A remote behavior in which `set_api_creds` raises. -/
def remoteSetFails : Remote :=
  ⟨CallResult.ok ⟨"K1", "S1", "P1"⟩, CallResult.exn "set failed",
   CallResult.ok []⟩

/-- A remote behavior in which `get_api_keys` raises. -/
def remoteVerifyFails : Remote :=
  ⟨CallResult.ok ⟨"K1", "S1", "P1"⟩, CallResult.ok (),
   CallResult.exn "network down"⟩

/-- Two strings with distinct characters at a position inside both of
their left parts are distinct. -/
lemma append_ne_append (p a q b : String) (i : Nat)
    (hp : i < p.data.length) (hq : i < q.data.length)
    (hne : p.data[i]? ≠ q.data[i]?) : p ++ a ≠ q ++ b := by
  intro h
  apply hne
  have hd : p.data ++ a.data = q.data ++ b.data := by
    simpa [String.data_append] using congrArg String.data h
  calc p.data[i]? = (p.data ++ a.data)[i]? := (List.getElem?_append_left hp).symm
    _ = (q.data ++ b.data)[i]? := by rw [hd]
    _ = q.data[i]? := List.getElem?_append_left hq

/-- A string differing from another at a position inside its left part is
distinct from it. -/
lemma append_ne_str (p a q : String) (i : Nat)
    (hp : i < p.data.length)
    (hne : p.data[i]? ≠ q.data[i]?) : p ++ a ≠ q := by
  intro h
  apply hne
  calc p.data[i]? = (p.data ++ a.data)[i]? := (List.getElem?_append_left hp).symm
    _ = q.data[i]? := by
        rw [show p.data ++ a.data = q.data by
          simpa [String.data_append] using congrArg String.data h]

/-- C1: whenever either required environment value is absent or empty,
the script raises the configuration `ValueError` and terminates with an
empty trace: the client is never constructed and no client call — in
particular none of `create_or_derive_api_creds`, `set_api_creds`,
`get_api_keys` — is performed. -/
theorem missing_config_fails_fast (env : Env) (remote : Remote)
    (h : env.POLYMARKET_TRADER_PRIVATE_KEY = none ∨
         env.POLYMARKET_TRADER_PRIVATE_KEY = some "" ∨
         env.POLYMARKET_TRADER_ADDRESS = none ∨
         env.POLYMARKET_TRADER_ADDRESS = some "") :
    runScript env remote = (Outcome.uncaught configErrorMsg, []) ∧
    List.filter isClientCall (runScript env remote).2 = [] := by
  have hcond : (!truthy env.POLYMARKET_TRADER_PRIVATE_KEY ||
      !truthy env.POLYMARKET_TRADER_ADDRESS) = true := by
    rcases h with h | h | h | h <;> simp [truthy, h]
  refine ⟨?_, ?_⟩ <;> simp [runScript, hcond]

/-- Witness for C1: private key absent, address present. -/
theorem missing_config_fails_fast_witness :
    runScript ⟨none, some "0xdef"⟩ remoteW =
      (Outcome.uncaught configErrorMsg, []) ∧
    List.filter isClientCall (runScript ⟨none, some "0xdef"⟩ remoteW).2 = [] :=
  missing_config_fails_fast ⟨none, some "0xdef"⟩ remoteW (Or.inl rfl)

/-- C3: whenever the run reaches the verification step (valid
configuration, credentials obtained and bound) and `get_api_keys` raises,
the exception is caught: the script prints the warning line and
terminates with success status. -/
theorem verification_failure_nonfatal (env : Env) (remote : Remote)
    (s t : String) (c : ApiCreds) (e : String)
    (hp : env.POLYMARKET_TRADER_PRIVATE_KEY = some s) (hs : s ≠ "")
    (hw : env.POLYMARKET_TRADER_ADDRESS = some t) (ht : t ≠ "")
    (hc : remote.create_or_derive_api_creds = CallResult.ok c)
    (hb : remote.set_api_creds = CallResult.ok ())
    (hg : remote.get_api_keys = CallResult.exn e) :
    (runScript env remote).1 = Outcome.exitSuccess ∧
    warnLine e ∈ printedLines (runScript env remote).2 := by
  refine ⟨?_, ?_⟩ <;>
    simp [runScript, printedLines, hp, hw, hs, ht, truthy, hc, hb, hg]

/-- Witness for C3: the verification call raises, yet the run exits
successfully with the warning printed. -/
theorem verification_failure_nonfatal_witness :
    (runScript envW remoteVerifyFails).1 = Outcome.exitSuccess ∧
    warnLine "network down" ∈ printedLines (runScript envW remoteVerifyFails).2 :=
  verification_failure_nonfatal envW remoteVerifyFails "0xabc" "0xdef"
    ⟨"K1", "S1", "P1"⟩ "network down" rfl (by decide) rfl (by decide)
    rfl rfl rfl

/-- C4: whenever `create_or_derive_api_creds` raises, the failure is
fatal and uncaught: the run terminates with that exception, the trace
ends at the create call, no credential field is printed and no
verification call is made. -/
theorem create_failure_fatal (env : Env) (remote : Remote)
    (s t msg : String)
    (hp : env.POLYMARKET_TRADER_PRIVATE_KEY = some s) (hs : s ≠ "")
    (hw : env.POLYMARKET_TRADER_ADDRESS = some t) (ht : t ≠ "")
    (hc : remote.create_or_derive_api_creds = CallResult.exn msg) :
    runScript env remote = (Outcome.uncaught msg,
      [Event.clobClientInit host chain_id s signature_type t,
       Event.printed genMsgLine,
       Event.callCreateOrDeriveApiCreds]) ∧
    printedLines (runScript env remote).2 = [genMsgLine] ∧
    Event.callSetApiCreds ∉ (runScript env remote).2 ∧
    Event.callGetApiKeys ∉ (runScript env remote).2 := by
  refine ⟨?_, ?_, ?_, ?_⟩ <;>
    simp [runScript, printedLines, hp, hw, hs, ht, truthy, hc]

/-- Witness for C4: the create call raises at a concrete input. -/
theorem create_failure_fatal_witness :
    runScript envW remoteCreateFails = (Outcome.uncaught "create failed",
      [Event.clobClientInit host chain_id "0xabc" signature_type "0xdef",
       Event.printed genMsgLine,
       Event.callCreateOrDeriveApiCreds]) ∧
    printedLines (runScript envW remoteCreateFails).2 = [genMsgLine] ∧
    Event.callSetApiCreds ∉ (runScript envW remoteCreateFails).2 ∧
    Event.callGetApiKeys ∉ (runScript envW remoteCreateFails).2 :=
  create_failure_fatal envW remoteCreateFails "0xabc" "0xdef" "create failed"
    rfl (by decide) rfl (by decide) rfl

/-- C5: whenever the verification call succeeds returning a list of keys,
the printed verification line reports exactly the length of that list,
and the run exits successfully. -/
theorem verification_count_exact (env : Env) (remote : Remote)
    (s t : String) (c : ApiCreds) (keys : List String)
    (hp : env.POLYMARKET_TRADER_PRIVATE_KEY = some s) (hs : s ≠ "")
    (hw : env.POLYMARKET_TRADER_ADDRESS = some t) (ht : t ≠ "")
    (hc : remote.create_or_derive_api_creds = CallResult.ok c)
    (hb : remote.set_api_creds = CallResult.ok ())
    (hg : remote.get_api_keys = CallResult.ok keys) :
    (runScript env remote).1 = Outcome.exitSuccess ∧
    (printedLines (runScript env remote).2).getLast? =
      some (successLine keys.length) := by
  refine ⟨?_, ?_⟩ <;>
    simp [runScript, printedLines, hp, hw, hs, ht, truthy, hc, hb, hg]

/-- Witness for C5: a successful verification with two keys reports 2. -/
theorem verification_count_exact_witness :
    (runScript envW remoteW).1 = Outcome.exitSuccess ∧
    (printedLines (runScript envW remoteW).2).getLast? =
      some (successLine (["key0", "key1"] : List String).length) :=
  verification_count_exact envW remoteW "0xabc" "0xdef" ⟨"K1", "S1", "P1"⟩
    ["key0", "key1"] rfl (by decide) rfl (by decide) rfl rfl rfl

/-- C6: with valid configuration the very first event of the run is the
construction of the client with the fixed constants — host
`https://clob.polymarket.com`, chain id 137, signature type 0 — the
signing key from `POLYMARKET_TRADER_PRIVATE_KEY` and the funder equal to
`POLYMARKET_TRADER_ADDRESS`; construction itself is not a client call
(no network I/O is modelled for it, per the spec's contract for the
external library). -/
theorem client_constructed_with_constants (env : Env) (remote : Remote)
    (s t : String)
    (hp : env.POLYMARKET_TRADER_PRIVATE_KEY = some s) (hs : s ≠ "")
    (hw : env.POLYMARKET_TRADER_ADDRESS = some t) (ht : t ≠ "") :
    (runScript env remote).2.head? =
      some (Event.clobClientInit "https://clob.polymarket.com" 137 s 0 t) ∧
    isClientCall (Event.clobClientInit "https://clob.polymarket.com" 137 s 0 t)
      = false := by
  refine ⟨?_, rfl⟩
  cases hc : remote.create_or_derive_api_creds <;>
    cases hb : remote.set_api_creds <;>
    cases hg : remote.get_api_keys <;>
    simp [runScript, host, chain_id, signature_type, hp, hw, hs, ht, truthy,
      hc, hb, hg]

/-- Witness for C6 at a concrete valid input. -/
theorem client_constructed_with_constants_witness :
    (runScript envW remoteW).2.head? =
      some (Event.clobClientInit "https://clob.polymarket.com" 137 "0xabc" 0
        "0xdef") ∧
    isClientCall (Event.clobClientInit "https://clob.polymarket.com" 137
      "0xabc" 0 "0xdef") = false :=
  client_constructed_with_constants envW remoteW "0xabc" "0xdef"
    rfl (by decide) rfl (by decide)

/-- C7: the end-to-end scenario — both variables set, credentials
`K1`/`S1`/`P1` returned, then a key list of length 2 — prints the three
exact credential lines and the success line reporting the count 2. -/
theorem end_to_end_scenario :
    "API_KEY      = K1" ∈ printedLines (runScript envW remoteW).2 ∧
    "API_SECRET   = S1" ∈ printedLines (runScript envW remoteW).2 ∧
    "API_PASSPHRASE = P1" ∈ printedLines (runScript envW remoteW).2 ∧
    "✅ 验证成功！当前账户共有 2 个 API Key" ∈
      printedLines (runScript envW remoteW).2 := by decide

/-- C9: whenever `set_api_creds` raises, the error is not caught: the
run terminates with that uncaught exception — not with success and not
with a printed warning — even though the three credential lines were
already printed; the trace stops at the `set_api_creds` call, so
`get_api_keys` is never reached. -/
theorem set_api_creds_failure_uncaught (env : Env) (remote : Remote)
    (s t msg : String) (c : ApiCreds)
    (hp : env.POLYMARKET_TRADER_PRIVATE_KEY = some s) (hs : s ≠ "")
    (hw : env.POLYMARKET_TRADER_ADDRESS = some t) (ht : t ≠ "")
    (hc : remote.create_or_derive_api_creds = CallResult.ok c)
    (hb : remote.set_api_creds = CallResult.exn msg) :
    runScript env remote = (Outcome.uncaught msg,
      [Event.clobClientInit host chain_id s signature_type t,
       Event.printed genMsgLine,
       Event.callCreateOrDeriveApiCreds,
       Event.printed bannerTop,
       Event.printed successBanner,
       Event.printed sep50,
       Event.printed (keyLine c),
       Event.printed (secretLine c),
       Event.printed (passphraseLine c),
       Event.printed sep50,
       Event.callSetApiCreds]) ∧
    (runScript env remote).1 ≠ Outcome.exitSuccess ∧
    Event.callGetApiKeys ∉ (runScript env remote).2 := by
  refine ⟨?_, ?_, ?_⟩ <;>
    simp [runScript, hp, hw, hs, ht, truthy, hc, hb]

/-- Witness for C9: `set_api_creds` raises at a concrete input. -/
theorem set_api_creds_failure_uncaught_witness :
    runScript envW remoteSetFails = (Outcome.uncaught "set failed",
      [Event.clobClientInit host chain_id "0xabc" signature_type "0xdef",
       Event.printed genMsgLine,
       Event.callCreateOrDeriveApiCreds,
       Event.printed bannerTop,
       Event.printed successBanner,
       Event.printed sep50,
       Event.printed (keyLine ⟨"K1", "S1", "P1"⟩),
       Event.printed (secretLine ⟨"K1", "S1", "P1"⟩),
       Event.printed (passphraseLine ⟨"K1", "S1", "P1"⟩),
       Event.printed sep50,
       Event.callSetApiCreds]) ∧
    (runScript envW remoteSetFails).1 ≠ Outcome.exitSuccess ∧
    Event.callGetApiKeys ∉ (runScript envW remoteSetFails).2 :=
  set_api_creds_failure_uncaught envW remoteSetFails "0xabc" "0xdef"
    "set failed" ⟨"K1", "S1", "P1"⟩ rfl (by decide) rfl (by decide) rfl rfl

/-- C10: configuration validation rejects exactly the absent and
empty-string cases — the create-or-derive call is reached if and only if
both variables are neither absent nor the empty string (so any other
value, whitespace included, passes). -/
theorem validation_exactly_none_or_empty (env : Env) (remote : Remote) :
    Event.callCreateOrDeriveApiCreds ∈ (runScript env remote).2 ↔
      (env.POLYMARKET_TRADER_PRIVATE_KEY ≠ none ∧
       env.POLYMARKET_TRADER_PRIVATE_KEY ≠ some "" ∧
       env.POLYMARKET_TRADER_ADDRESS ≠ none ∧
       env.POLYMARKET_TRADER_ADDRESS ≠ some "") := by
  obtain ⟨pk, wa⟩ := env
  rcases pk with _ | s
  · simp [runScript, truthy]
  · rcases wa with _ | t
    · simp [runScript, truthy]
    · rcases eq_or_ne s "" with rfl | hs
      · simp [runScript, truthy]
      · rcases eq_or_ne t "" with rfl | ht
        · simp [runScript, truthy, hs]
        · cases hc : remote.create_or_derive_api_creds <;>
            cases hb : remote.set_api_creds <;>
            cases hg : remote.get_api_keys <;>
            simp [runScript, truthy, hs, ht, hc, hb, hg]

/-- C2: whenever the create-or-derive call succeeds, each of the three
credential lines is printed verbatim exactly once, and in the order key,
then secret, then passphrase — whatever the subsequent calls do. -/
theorem creds_printed_once_in_order (env : Env) (remote : Remote)
    (s t : String) (c : ApiCreds)
    (hp : env.POLYMARKET_TRADER_PRIVATE_KEY = some s) (hs : s ≠ "")
    (hw : env.POLYMARKET_TRADER_ADDRESS = some t) (ht : t ≠ "")
    (hc : remote.create_or_derive_api_creds = CallResult.ok c) :
    occurrencesOf (keyLine c) (printedLines (runScript env remote).2) = 1 ∧
    occurrencesOf (secretLine c) (printedLines (runScript env remote).2) = 1 ∧
    occurrencesOf (passphraseLine c) (printedLines (runScript env remote).2)
      = 1 ∧
    firstIndexOf (keyLine c) (printedLines (runScript env remote).2) <
      firstIndexOf (secretLine c) (printedLines (runScript env remote).2) ∧
    firstIndexOf (secretLine c) (printedLines (runScript env remote).2) <
      firstIndexOf (passphraseLine c) (printedLines (runScript env remote).2)
    := by
  have n1k : genMsgLine ≠ keyLine c :=
    (append_ne_str "API_KEY      = " c.api_key genMsgLine 0
      (by decide) (by decide)).symm
  have n2k : bannerTop ≠ keyLine c :=
    append_ne_append "\n" sep50 "API_KEY      = " c.api_key 0
      (by decide) (by decide) (by decide)
  have n3k : successBanner ≠ keyLine c :=
    (append_ne_str "API_KEY      = " c.api_key successBanner 0
      (by decide) (by decide)).symm
  have n4k : sep50 ≠ keyLine c :=
    (append_ne_str "API_KEY      = " c.api_key sep50 0
      (by decide) (by decide)).symm
  have n5k : secretLine c ≠ keyLine c :=
    append_ne_append "API_SECRET   = " c.api_secret "API_KEY      = "
      c.api_key 4 (by decide) (by decide) (by decide)
  have n6k : passphraseLine c ≠ keyLine c :=
    append_ne_append "API_PASSPHRASE = " c.api_passphrase "API_KEY      = "
      c.api_key 4 (by decide) (by decide) (by decide)
  have n7k : verifyingLine ≠ keyLine c :=
    (append_ne_str "API_KEY      = " c.api_key verifyingLine 0
      (by decide) (by decide)).symm
  have n8k : ∀ n : Nat, successLine n ≠ keyLine c := fun n =>
    append_ne_append "✅ 验证成功！当前账户共有 " (toString n ++ " 个 API Key")
      "API_KEY      = " c.api_key 0 (by decide) (by decide) (by decide)
  have n9k : ∀ e : String, warnLine e ≠ keyLine c := fun e =>
    append_ne_append "⚠️ 验证失败: " e "API_KEY      = " c.api_key 0
      (by decide) (by decide) (by decide)
  have n1s : genMsgLine ≠ secretLine c :=
    (append_ne_str "API_SECRET   = " c.api_secret genMsgLine 0
      (by decide) (by decide)).symm
  have n2s : bannerTop ≠ secretLine c :=
    append_ne_append "\n" sep50 "API_SECRET   = " c.api_secret 0
      (by decide) (by decide) (by decide)
  have n3s : successBanner ≠ secretLine c :=
    (append_ne_str "API_SECRET   = " c.api_secret successBanner 0
      (by decide) (by decide)).symm
  have n4s : sep50 ≠ secretLine c :=
    (append_ne_str "API_SECRET   = " c.api_secret sep50 0
      (by decide) (by decide)).symm
  have n5s : keyLine c ≠ secretLine c :=
    append_ne_append "API_KEY      = " c.api_key "API_SECRET   = "
      c.api_secret 4 (by decide) (by decide) (by decide)
  have n6s : passphraseLine c ≠ secretLine c :=
    append_ne_append "API_PASSPHRASE = " c.api_passphrase "API_SECRET   = "
      c.api_secret 4 (by decide) (by decide) (by decide)
  have n7s : verifyingLine ≠ secretLine c :=
    (append_ne_str "API_SECRET   = " c.api_secret verifyingLine 0
      (by decide) (by decide)).symm
  have n8s : ∀ n : Nat, successLine n ≠ secretLine c := fun n =>
    append_ne_append "✅ 验证成功！当前账户共有 " (toString n ++ " 个 API Key")
      "API_SECRET   = " c.api_secret 0 (by decide) (by decide) (by decide)
  have n9s : ∀ e : String, warnLine e ≠ secretLine c := fun e =>
    append_ne_append "⚠️ 验证失败: " e "API_SECRET   = " c.api_secret 0
      (by decide) (by decide) (by decide)
  have n1p : genMsgLine ≠ passphraseLine c :=
    (append_ne_str "API_PASSPHRASE = " c.api_passphrase genMsgLine 0
      (by decide) (by decide)).symm
  have n2p : bannerTop ≠ passphraseLine c :=
    append_ne_append "\n" sep50 "API_PASSPHRASE = " c.api_passphrase 0
      (by decide) (by decide) (by decide)
  have n3p : successBanner ≠ passphraseLine c :=
    (append_ne_str "API_PASSPHRASE = " c.api_passphrase successBanner 0
      (by decide) (by decide)).symm
  have n4p : sep50 ≠ passphraseLine c :=
    (append_ne_str "API_PASSPHRASE = " c.api_passphrase sep50 0
      (by decide) (by decide)).symm
  have n5p : keyLine c ≠ passphraseLine c :=
    append_ne_append "API_KEY      = " c.api_key "API_PASSPHRASE = "
      c.api_passphrase 4 (by decide) (by decide) (by decide)
  have n6p : secretLine c ≠ passphraseLine c :=
    append_ne_append "API_SECRET   = " c.api_secret "API_PASSPHRASE = "
      c.api_passphrase 4 (by decide) (by decide) (by decide)
  have n7p : verifyingLine ≠ passphraseLine c :=
    (append_ne_str "API_PASSPHRASE = " c.api_passphrase verifyingLine 0
      (by decide) (by decide)).symm
  have n8p : ∀ n : Nat, successLine n ≠ passphraseLine c := fun n =>
    append_ne_append "✅ 验证成功！当前账户共有 " (toString n ++ " 个 API Key")
      "API_PASSPHRASE = " c.api_passphrase 0
      (by decide) (by decide) (by decide)
  have n9p : ∀ e : String, warnLine e ≠ passphraseLine c := fun e =>
    append_ne_append "⚠️ 验证失败: " e "API_PASSPHRASE = " c.api_passphrase 0
      (by decide) (by decide) (by decide)
  cases hb : remote.set_api_creds <;> cases hg : remote.get_api_keys <;>
    simp [runScript, printedLines, occurrencesOf, firstIndexOf,
      hp, hw, hs, ht, truthy, hc, hb, hg,
      n1k, n2k, n3k, n4k, n5k, n6k, n7k, n8k, n9k,
      n1s, n2s, n3s, n4s, n5s, n6s, n7s, n8s, n9s,
      n1p, n2p, n3p, n4p, n5p, n6p, n7p, n8p, n9p]

/-- Witness for C2 at the concrete end-to-end input. -/
theorem creds_printed_once_in_order_witness :
    occurrencesOf (keyLine ⟨"K1", "S1", "P1"⟩)
      (printedLines (runScript envW remoteW).2) = 1 ∧
    occurrencesOf (secretLine ⟨"K1", "S1", "P1"⟩)
      (printedLines (runScript envW remoteW).2) = 1 ∧
    occurrencesOf (passphraseLine ⟨"K1", "S1", "P1"⟩)
      (printedLines (runScript envW remoteW).2) = 1 ∧
    firstIndexOf (keyLine ⟨"K1", "S1", "P1"⟩)
      (printedLines (runScript envW remoteW).2) <
      firstIndexOf (secretLine ⟨"K1", "S1", "P1"⟩)
        (printedLines (runScript envW remoteW).2) ∧
    firstIndexOf (secretLine ⟨"K1", "S1", "P1"⟩)
      (printedLines (runScript envW remoteW).2) <
      firstIndexOf (passphraseLine ⟨"K1", "S1", "P1"⟩)
        (printedLines (runScript envW remoteW).2) :=
  creds_printed_once_in_order envW remoteW "0xabc" "0xdef" ⟨"K1", "S1", "P1"⟩
    rfl (by decide) rfl (by decide) rfl

/-- C8 counterexample: with only the private key missing (the address is
present and non-empty) the raised message nevertheless mentions
`POLYMARKET_TRADER_ADDRESS`, and the message is identical to the one
raised when only the address is missing — so the message does not
identify which value(s) are missing. -/
theorem config_message_counterexample :
    (runScript ⟨none, some "0xdef"⟩ remoteW).1 =
      Outcome.uncaught configErrorMsg ∧
    msgMentions configErrorMsg "POLYMARKET_TRADER_ADDRESS" = true ∧
    truthy (some "0xdef") = true ∧
    (runScript ⟨none, some "0xdef"⟩ remoteW).1 =
      (runScript ⟨some "0xabc", none⟩ remoteW).1 := by decide

/-- C8 amended: for every run with missing configuration, the raised
error carries one fixed message that names both required variables,
regardless of which value(s) are actually missing. -/
theorem config_message_names_both (env : Env) (remote : Remote)
    (h : env.POLYMARKET_TRADER_PRIVATE_KEY = none ∨
         env.POLYMARKET_TRADER_PRIVATE_KEY = some "" ∨
         env.POLYMARKET_TRADER_ADDRESS = none ∨
         env.POLYMARKET_TRADER_ADDRESS = some "") :
    (runScript env remote).1 = Outcome.uncaught configErrorMsg ∧
    msgMentions configErrorMsg "POLYMARKET_TRADER_PRIVATE_KEY" = true ∧
    msgMentions configErrorMsg "POLYMARKET_TRADER_ADDRESS" = true := by
  refine ⟨?_, by decide, by decide⟩
  rcases h with h | h | h | h <;> simp [runScript, truthy, h]

/-- Witness for C8 amended: address absent, private key present. -/
theorem config_message_names_both_witness :
    (runScript ⟨some "0xabc", none⟩ remoteW).1 =
      Outcome.uncaught configErrorMsg ∧
    msgMentions configErrorMsg "POLYMARKET_TRADER_PRIVATE_KEY" = true ∧
    msgMentions configErrorMsg "POLYMARKET_TRADER_ADDRESS" = true :=
  config_message_names_both ⟨some "0xabc", none⟩ remoteW
    (Or.inr (Or.inr (Or.inl rfl)))

end GetPmApikey
